import Mathlib

/-! # Form flow controller of `login-reg.js`

A shallow embedding of the page script `src/login-reg.js`: the three panels
(login, register, forgot-password), the three-step password-reset wizard, the
status banners, the outstanding `fetch` requests and the pending `setTimeout`
callbacks.

Modelling conventions.

* An element the script looks up is an `Option` (or a `Bool` presence flag
  when it carries no state of its own): `none` when the page has no such
  element. Where the script tests the element for `null` the model skips the
  statement; where it does not (the wizard step containers `forgot-step-1/2/3`)
  the property access on `null` throws a `TypeError`, which ends the running
  function or callback with the page as it then stood (`Outcome.threw`), and
  inside a promise chain hands control to its `.catch`.
* `style` values are the strings the script assigns (`"block"`, `"none"`,
  `"50%"`, ...); `style.opacity = 1` is the string `"1"`.
* Status banners are kept in one list for the document; every banner records
  the form that contains it (`none` when it lies outside the three forms), so
  `querySelectorAll('.status-message')` on a form or on the document is a
  filter of that list.
* `fetch` appends a request to `pending`; the `.then`/`.catch` chain of a
  request is the function `handleResponse`, run when a response is delivered.
  `setTimeout` appends a timer to `timers`; `fireTimer` runs its callback.
* The delegated link routing, the password-visibility toggles and the terms
  modal touch none of the state above and are left out; a panel activation is
  the call of the switching function itself.
-/

namespace LoginReg

/-! ## Data model -/

/-- The three form panels of the page. -/
inductive Panel where
  | login
  | register
  | forgot
  deriving DecidableEq, Repr

/-- A form element matched by `.login-form`, `.register-form` or
`.forgot-password-form`: its inline style and the two anchors
`showStatusMessage` looks for inside it. -/
structure Form where
  left : String
  opacity : String
  /-- Whether `formElement.querySelector('.switch-form')` finds an element. -/
  switchForm : Bool
  /-- Whether `formElement.querySelector('.btn-submit:last-of-type')` finds a
  button whose closest `.input-box` is a direct child of the form. -/
  submitBox : Bool
  deriving DecidableEq, Repr

/-- A title element (`.title-login`, `.title-register`, `.title-forgot`). -/
structure Title where
  top : String
  opacity : String
  deriving DecidableEq, Repr

/-- The `.wrapper` element. -/
structure Wrapper where
  height : String
  deriving DecidableEq, Repr

/-- The second class of a status banner: `status-message success` or
`status-message error`. -/
inductive Kind where
  | success
  | error
  deriving DecidableEq, Repr

/-- Where `showStatusMessage` put the banner inside its form. -/
inductive Place where
  /-- By `insertBefore(statusDiv, switchForm)`. -/
  | beforeSwitchForm
  /-- By `insertBefore(statusDiv, inputBox.nextSibling)`: right after the
  `.input-box` of the button found. -/
  | afterSubmitBox
  /-- By `appendChild(statusDiv)`. -/
  | appended
  deriving DecidableEq, Repr

/-- A `div.status-message` attached to the document. -/
structure StatusMsg where
  id : Nat
  /-- The form that contains the banner, `none` for a banner elsewhere. -/
  within : Option Panel
  text : String
  kind : Kind
  place : Place
  deriving DecidableEq, Repr

/-- A form control reachable by `document.getElementById`. -/
structure Control where
  id : String
  /-- The form owning the control (the one whose `reset()` restores it). -/
  form : Option Panel
  value : String
  defaultValue : String
  checked : Bool
  defaultChecked : Bool
  deriving DecidableEq, Repr

/-- The callbacks the script hands to `setTimeout`. -/
inductive TimerAction where
  /-- The callback `if (statusDiv.parentNode) statusDiv.remove()` for the banner `id`. -/
  | removeStatus (id : Nat)
  /-- The callback `window.location.href = '/'`. -/
  | redirectHome
  /-- The callback `loginFunction` itself, as in `setTimeout(loginFunction, 2000)`. -/
  | backToLogin
  /-- A call of `loginFunction()` followed by a 100 ms timer that shows `text` as a
  success banner on the login form. -/
  | loginThenNotify (text : String)
  /-- The callback `showStatusMessage(loginForm, text, true)`. -/
  | notifyLogin (text : String)
  deriving DecidableEq, Repr

/-- A pending `setTimeout` callback with its delay in milliseconds. -/
structure Timer where
  delay : Nat
  action : TimerAction
  deriving DecidableEq, Repr

/-- An outstanding `fetch`, with what its response handler captured. -/
inductive Request where
  /-- A `POST /api/login`; the body `new FormData(loginForm)` is built by the
  browser and read by no handler, the model does not keep it. -/
  | login
  /-- A `POST /api/register`; the body `new FormData(registerForm)` is not kept
  either. -/
  | register
  /-- A `POST /api/forgot-password`, `action=verifyEmail`. -/
  | verifyEmail (email : String)
  /-- A `POST /api/forgot-password`, `action=verifyAnswer`. -/
  | verifyAnswer (email : String) (answer : String)
  /-- A `POST /api/forgot-password`, `action=resetPassword`. -/
  | resetPassword (email : String) (newPassword : String)
  deriving DecidableEq, Repr

/-- The JSON object of a response body, restricted to the members the script
reads. -/
structure Payload where
  success : Bool
  message : Option String
  security_question : Option String
  deriving DecidableEq, Repr

/-- What a `fetch` promise chain receives: a parsed response, or a rejection
(network failure, body that is not JSON). -/
inductive Response where
  | parsed (ok : Bool) (status : Nat) (data : Payload)
  | failed
  deriving DecidableEq, Repr

/-- The page as the script sees it. -/
structure Page where
  loginForm : Option Form
  registerForm : Option Form
  forgotPasswordForm : Option Form
  wrapper : Option Wrapper
  loginTitle : Option Title
  registerTitle : Option Title
  forgotTitle : Option Title
  /-- The inline `style.display` of `#forgot-step-1`, when the element exists. -/
  step1 : Option String
  /-- The inline `style.display` of `#forgot-step-2`, when the element exists. -/
  step2 : Option String
  /-- The inline `style.display` of `#forgot-step-3`, when the element exists. -/
  step3 : Option String
  /-- The `textContent` of `#security-question-text`, when the element exists. -/
  securityQuestionText : Option String
  verifyEmailBtn : Bool
  verifyAnswerBtn : Bool
  resetPasswordBtn : Bool
  controls : List Control
  /-- The value of `sessionStorage.getItem('resetEmail')`. -/
  resetEmail : Option String
  /-- Every `.status-message` element of the document. -/
  status : List StatusMsg
  /-- Identity given to the next element made by `document.createElement`. -/
  nextId : Nat
  timers : List Timer
  pending : List Request
  /-- The value of `window.location.href`. -/
  href : String
  deriving DecidableEq, Repr

/-- The result of running statements that may dereference a missing element:
`done` when they ran to their end, `threw` when a `TypeError` stopped them, each
with the page as it then stood. -/
inductive Outcome where
  | done (s : Page)
  | threw (s : Page)
  deriving DecidableEq, Repr

/-- The page an outcome leaves behind. -/
def Outcome.page : Outcome → Page
  | .done s => s
  | .threw s => s

/-- Sequencing: the statements `f` run only when those before them did not throw. -/
def Outcome.andThen : Outcome → (Page → Outcome) → Outcome
  | .done s, f => f s
  | .threw s, _ => .threw s

/-- Whether the statements ran to their end. -/
def Outcome.completed : Outcome → Bool
  | .done _ => true
  | .threw _ => false

/-- The promise step `.catch(handler)` after a callback with outcome `o`: the
handler runs only when the callback threw. -/
def Outcome.orCatch : Outcome → (Page → Page) → Page
  | .done s, _ => s
  | .threw s, handler => handler s

/-- The form constant of the script for a panel (`loginForm`, `registerForm`,
`forgotPasswordForm`). -/
def Page.form (s : Page) : Panel → Option Form
  | .login => s.loginForm
  | .register => s.registerForm
  | .forgot => s.forgotPasswordForm

/-- The status banners found by `querySelectorAll('.status-message')` on the
form of panel `p`. -/
def Page.statusWithin (s : Page) (p : Panel) : List StatusMsg :=
  s.status.filter (fun m => decide (m.within = some p))

/-- The value of `document.getElementById(id)` among the form controls. -/
def getElementById (s : Page) (id : String) : Option Control :=
  s.controls.find? (fun c => decide (c.id = id))

/-- JavaScript truthiness of a string that may be `null`/`undefined`. -/
def truthy : Option String → Bool
  | none => false
  | some v => decide (v ≠ "")

/-- The expression `a || b` for a possibly absent string `a`. -/
def orElse (a : Option String) (b : String) : String :=
  if truthy a then a.getD "" else b

/-- The string stored by `el.textContent = v` for a possibly absent string:
`undefined` and `null` give the empty string. -/
def textOf (v : Option String) : String :=
  v.getD ""

/-! ## Status message handling -/

/-- The function `clearStatusMessages(formElement = document)`: `scope = none` is the default
`document`, `scope = some p` the form of panel `p`. -/
def clearStatusMessages (scope : Option Panel) (s : Page) : Page :=
  match scope with
  | none => { s with status := [] }
  | some p =>
    match s.form p with
    | none => s
    | some _ => { s with status := s.status.filter (fun m => !decide (m.within = some p)) }

/-- The insertion point chosen by `showStatusMessage` inside form `f`. -/
def insertionPlace (f : Form) : Place :=
  if f.switchForm then .beforeSwitchForm
  else if f.submitBox then .afterSubmitBox
  else .appended

/-- The class of a new banner: `isSuccess ? 'success' : 'error'`. -/
def kindOf (isSuccess : Bool) : Kind :=
  if isSuccess then .success else .error

/-- The function `showStatusMessage(formElement, message, isSuccess)`, with the form given by its panel. -/
def showStatusMessage (p : Panel) (message : String) (isSuccess : Bool) (s : Page) : Page :=
  match s.form p with
  | none => s
  | some f =>
    let s1 := clearStatusMessages (some p) s
    let statusDiv : StatusMsg :=
      { id := s1.nextId, within := some p, text := message, kind := kindOf isSuccess,
        place := insertionPlace f }
    let s2 := { s1 with status := s1.status ++ [statusDiv], nextId := s1.nextId + 1 }
    if isSuccess then
      { s2 with timers := s2.timers ++ [{ delay := 3500, action := .removeStatus statusDiv.id }] }
    else s2

/-! ## Form switching -/

/-- The form method `form.reset()` for the form of panel `p`: every control owned by the form goes
back to its default value and default checkedness. -/
def resetForm (p : Panel) (s : Page) : Page :=
  match s.form p with
  | none => s
  | some _ =>
    { s with controls := s.controls.map (fun c =>
        if c.form = some p then { c with value := c.defaultValue, checked := c.defaultChecked }
        else c) }

/-- The safety check that opens the three switching functions. -/
def layoutMissing (s : Page) : Bool :=
  s.loginForm.isNone || s.registerForm.isNone || s.forgotPasswordForm.isNone ||
  s.wrapper.isNone || s.loginTitle.isNone || s.registerTitle.isNone || s.forgotTitle.isNone

/-- The assignments to the seven layout elements (form `left`/`opacity`,
wrapper `height`, title `top`/`opacity`) made by a switching function. -/
def setLayout (s : Page) (ll lo rl ro fl fo : String) (h : String)
    (lt lto rt rto ft fto : String) : Page :=
  { s with
    loginForm := s.loginForm.map (fun f => { f with left := ll, opacity := lo })
    registerForm := s.registerForm.map (fun f => { f with left := rl, opacity := ro })
    forgotPasswordForm := s.forgotPasswordForm.map (fun f => { f with left := fl, opacity := fo })
    wrapper := s.wrapper.map (fun w => { w with height := h })
    loginTitle := s.loginTitle.map (fun t => { t with top := lt, opacity := lto })
    registerTitle := s.registerTitle.map (fun t => { t with top := rt, opacity := rto })
    forgotTitle := s.forgotTitle.map (fun t => { t with top := ft, opacity := fto }) }

/-- The statement `document.getElementById('forgot-step-1').style.display = v`. -/
def setStep1 (v : String) (s : Page) : Outcome :=
  match s.step1 with
  | none => .threw s
  | some _ => .done { s with step1 := some v }

/-- The statement `document.getElementById('forgot-step-2').style.display = v`. -/
def setStep2 (v : String) (s : Page) : Outcome :=
  match s.step2 with
  | none => .threw s
  | some _ => .done { s with step2 := some v }

/-- The statement `document.getElementById('forgot-step-3').style.display = v`. -/
def setStep3 (v : String) (s : Page) : Outcome :=
  match s.step3 with
  | none => .threw s
  | some _ => .done { s with step3 := some v }

/-- The three step containers all exist. -/
def stepsPresent (s : Page) : Bool :=
  s.step1.isSome && s.step2.isSome && s.step3.isSome

/-- The three `style.display` assignments that put the wizard on step 1, in
source order. -/
def showStepOne (s : Page) : Outcome :=
  (setStep1 "block" s).andThen fun s => (setStep2 "none" s).andThen fun s => setStep3 "none" s

/-- The call `sessionStorage.removeItem('resetEmail')`. -/
def removeResetEmail (s : Page) : Page :=
  { s with resetEmail := none }

/-- The function `loginFunction()`. -/
def loginFunction (s : Page) : Outcome :=
  if layoutMissing s then .done s
  else
    let s := setLayout s "50%" "1" "150%" "0" "150%" "0" "500px" "50%" "1" "50px" "0" "50px" "0"
    let s := clearStatusMessages none s
    (showStepOne s).andThen fun s =>
      let s := resetForm .forgot s
      .done (removeResetEmail s)

/-- The function `registerFunction()`. -/
def registerFunction (s : Page) : Page :=
  if layoutMissing s then s
  else
    let s := setLayout s "-50%" "0" "50%" "1" "150%" "0" "680px" "50px" "0" "50%" "1" "50px" "0"
    clearStatusMessages none s

/-- The function `forgotPasswordFunction()`. -/
def forgotPasswordFunction (s : Page) : Outcome :=
  if layoutMissing s then .done s
  else
    let s := setLayout s "-50%" "0" "150%" "0" "50%" "1" "430px" "50px" "0" "50px" "0" "50%" "1"
    (showStepOne s).andThen fun s =>
      let s := resetForm .forgot s
      let s := removeResetEmail s
      .done (clearStatusMessages none s)

/-- The page after the call of the switching function of a panel, whether the
call ran to its end or threw. -/
def activate : Panel → Page → Page
  | .login, s => (loginFunction s).page
  | .register, s => registerFunction s
  | .forgot, s => (forgotPasswordFunction s).page

/-! ## Form submission and the wizard -/

/-- The call `fetch(url, ...)`: the request joins the outstanding ones. -/
def fetch (r : Request) (s : Page) : Page :=
  { s with pending := s.pending ++ [r] }

/-- The call `setTimeout(callback, delay)`. -/
def setTimeout (a : TimerAction) (delay : Nat) (s : Page) : Page :=
  { s with timers := s.timers ++ [{ delay := delay, action := a }] }

/-- The `submit` listener of the login form (registered when `loginForm` exists). -/
def loginSubmit (s : Page) : Page :=
  match s.loginForm with
  | none => s
  | some _ => fetch .login s

/-- The `submit` listener of the register form (registered when `registerForm` exists). -/
def registerSubmit (s : Page) : Page :=
  match s.registerForm with
  | none => s
  | some _ =>
    match getElementById s "agree" with
    | none => showStatusMessage .register "Please agree to the terms and conditions." false s
    | some agreeCheckbox =>
      if !agreeCheckbox.checked then
        showStatusMessage .register "Please agree to the terms and conditions." false s
      else fetch .register s

/-- Whether the characters `needle` occur consecutively in `text`. -/
def includesChars : List Char → List Char → Bool
  | [], needle => needle.isEmpty
  | c :: cs, needle => List.isPrefixOf needle (c :: cs) || includesChars cs needle

/-- The method `text.includes(needle)` of JavaScript strings. -/
def includes (text needle : String) : Bool :=
  includesChars text.toList needle.toList

/-- The `change` listener of the `agree` checkbox (registered when both
`registerForm` and the checkbox exist). -/
def agreeChange (s : Page) : Page :=
  match s.registerForm, getElementById s "agree" with
  | some _, some agreeCheckbox =>
    if agreeCheckbox.checked then
      { s with status := s.status.filter (fun m =>
          !(decide (m.within = some .register) && decide (m.kind = .error) &&
            includes m.text "terms and conditions")) }
    else s
  | _, _ => s

/-- The `click` listener of `verifyEmailBtn` (registered when the button and
`forgotPasswordForm` exist). -/
def verifyEmailClick (s : Page) : Page :=
  if !s.verifyEmailBtn || s.forgotPasswordForm.isNone then s
  else
    match getElementById s "forgot-email" with
    | none => s
    | some emailInput =>
      let email := emailInput.value
      if email = "" then
        showStatusMessage .forgot "Please enter your email address." false s
      else fetch (.verifyEmail email) s

/-- The `click` listener of `verifyAnswerBtn`. -/
def verifyAnswerClick (s : Page) : Page :=
  if !s.verifyAnswerBtn || s.forgotPasswordForm.isNone then s
  else
    match getElementById s "forgot-answer" with
    | none => s
    | some answerInput =>
      let answer := answerInput.value
      let email := s.resetEmail
      if answer = "" then
        showStatusMessage .forgot "Please enter your answer." false s
      else if !truthy email then
        setTimeout .backToLogin 2000
          (showStatusMessage .forgot "Email session lost. Please start over." false s)
      else fetch (.verifyAnswer (email.getD "") answer) s

/-- The `click` listener of `resetPasswordBtn`. -/
def resetPasswordClick (s : Page) : Page :=
  if !s.resetPasswordBtn || s.forgotPasswordForm.isNone then s
  else
    match getElementById s "new-password" with
    | none => s
    | some newPasswordInput =>
      let newPassword := newPasswordInput.value
      let email := s.resetEmail
      if newPassword = "" then
        showStatusMessage .forgot "Please enter a new password." false s
      else if !truthy email then
        setTimeout .backToLogin 2000
          (showStatusMessage .forgot "Email session lost. Please start over." false s)
      else fetch (.resetPassword (email.getD "") newPassword) s

/-! ## Response handlers -/

/-- The `.then(result => ...)` / `.catch` chain of the login request. -/
def loginResponse (r : Response) (s : Page) : Page :=
  match r with
  | .parsed ok status data =>
    if ok then
      setTimeout .redirectHome 1000 (showStatusMessage .login (textOf data.message) true s)
    else
      showStatusMessage .login (orElse data.message ("Error: " ++ toString status)) false s
  | .failed =>
    showStatusMessage .login "A network or server error occurred. Please try again." false s

/-- The `.then(result => ...)` / `.catch` chain of the register request. -/
def registerResponse (r : Response) (s : Page) : Page :=
  match r with
  | .parsed ok status data =>
    if ok then
      let s := showStatusMessage .register (textOf data.message) true s
      let s := resetForm .register s
      setTimeout (.loginThenNotify "Registration successful! Please login.") 2000 s
    else
      showStatusMessage .register (orElse data.message ("Error: " ++ toString status)) false s
  | .failed =>
    showStatusMessage .register "A network or server error occurred. Please try again." false s

/-- The `.then(data => ...)` / `.catch` chain of a verifyEmail request; `email`
is the value captured by the click. A `TypeError` thrown in the success branch
rejects the chain, so the `.catch` callback runs on the page as it then stood. -/
def verifyEmailResponse (email : String) (r : Response) (s : Page) : Page :=
  match r with
  | .parsed _ _ data =>
    if data.success then
      let s := { s with resetEmail := some email }
      let s := { s with securityQuestionText :=
                  s.securityQuestionText.map (fun _ => textOf data.security_question) }
      ((setStep1 "none" s).andThen fun s => (setStep2 "block" s).andThen fun s =>
          let s := { s with wrapper := s.wrapper.map (fun w => { w with height := "500px" }) }
          .done (clearStatusMessages (some .forgot) s)).orCatch
        (showStatusMessage .forgot "An error occurred verifying email. Please try again." false)
    else
      showStatusMessage .forgot (orElse data.message "Failed to verify email.") false s
  | .failed =>
    showStatusMessage .forgot "An error occurred verifying email. Please try again." false s

/-- The `.then(data => ...)` / `.catch` chain of a verifyAnswer request. -/
def verifyAnswerResponse (r : Response) (s : Page) : Page :=
  match r with
  | .parsed _ _ data =>
    if data.success then
      ((setStep2 "none" s).andThen fun s => (setStep3 "block" s).andThen fun s =>
          let s := { s with wrapper := s.wrapper.map (fun w => { w with height := "450px" }) }
          .done (clearStatusMessages (some .forgot) s)).orCatch
        (showStatusMessage .forgot "An error occurred verifying answer. Please try again." false)
    else
      showStatusMessage .forgot (orElse data.message "Failed to verify answer.") false s
  | .failed =>
    showStatusMessage .forgot "An error occurred verifying answer. Please try again." false s

/-- The `.then(data => ...)` / `.catch` chain of a resetPassword request. -/
def resetPasswordResponse (r : Response) (s : Page) : Page :=
  match r with
  | .parsed _ _ data =>
    if data.success then
      let s := showStatusMessage .forgot (textOf data.message) true s
      let s := removeResetEmail s
      let s := resetForm .forgot s
      setTimeout (.loginThenNotify "Password reset successful! Please login.") 2500 s
    else
      showStatusMessage .forgot (orElse data.message "Failed to reset password.") false s
  | .failed =>
    showStatusMessage .forgot "An error occurred resetting password. Please try again." false s

/-- The promise chain attached to a request by the listener that issued it. -/
def handleResponse : Request → Response → Page → Page
  | .login => loginResponse
  | .register => registerResponse
  | .verifyEmail email => verifyEmailResponse email
  | .verifyAnswer _ _ => verifyAnswerResponse
  | .resetPassword _ _ => resetPasswordResponse

/-- The body of a timer callback. -/
def runTimer : TimerAction → Page → Page
  | .removeStatus id, s => { s with status := s.status.filter (fun m => !decide (m.id = id)) }
  | .redirectHome, s => { s with href := "/" }
  | .backToLogin, s => (loginFunction s).page
  | .loginThenNotify text, s =>
    ((loginFunction s).andThen fun s => .done (setTimeout (.notifyLogin text) 100 s)).page
  | .notifyLogin text, s => showStatusMessage .login text true s

/-! ## The event loop -/

/-- What can happen to the page: a panel activation, user input, a submit or
click, the response to the `i`-th outstanding request, the `i`-th pending timer
coming due. -/
inductive Event where
  | activate (p : Panel)
  | typeInto (id : String) (value : String)
  | toggleAgree
  | submitLogin
  | submitRegister
  | clickVerifyEmail
  | clickVerifyAnswer
  | clickResetPassword
  | respond (i : Nat) (r : Response)
  | fire (i : Nat)
  deriving DecidableEq, Repr

/-- The user replaces the value of the control `id`. -/
def typeInto (id value : String) (s : Page) : Page :=
  { s with controls := s.controls.map (fun c => if c.id = id then { c with value := value } else c) }

/-- The user toggles the `agree` checkbox, which then dispatches `change`. -/
def toggleAgree (s : Page) : Page :=
  agreeChange { s with controls := s.controls.map (fun c =>
    if c.id = "agree" then { c with checked := !c.checked } else c) }

/-- The response `r` to the `i`-th outstanding request arrives. -/
def deliver (i : Nat) (r : Response) (s : Page) : Page :=
  match s.pending.get? i with
  | none => s
  | some req => handleResponse req r { s with pending := s.pending.eraseIdx i }

/-- The `i`-th pending timer comes due. -/
def fireTimer (i : Nat) (s : Page) : Page :=
  match s.timers.get? i with
  | none => s
  | some t => runTimer t.action { s with timers := s.timers.eraseIdx i }

/-- One turn of the event loop. -/
def step (s : Page) : Event → Page
  | .activate p => activate p s
  | .typeInto id value => typeInto id value s
  | .toggleAgree => toggleAgree s
  | .submitLogin => loginSubmit s
  | .submitRegister => registerSubmit s
  | .clickVerifyEmail => verifyEmailClick s
  | .clickVerifyAnswer => verifyAnswerClick s
  | .clickResetPassword => resetPasswordClick s
  | .respond i r => deliver i r s
  | .fire i => fireTimer i s

/-- The page after a sequence of events. -/
def run (s : Page) (es : List Event) : Page :=
  es.foldl step s

/-- A page with the whole layout, the wizard on step 1, the controls the
script looks up, nothing stored, nothing outstanding. -/
def samplePage : Page :=
  { loginForm := some { left := "50%", opacity := "1", switchForm := true, submitBox := true }
    registerForm := some { left := "150%", opacity := "0", switchForm := true, submitBox := true }
    forgotPasswordForm :=
      some { left := "150%", opacity := "0", switchForm := true, submitBox := false }
    wrapper := some { height := "500px" }
    loginTitle := some { top := "50%", opacity := "1" }
    registerTitle := some { top := "50px", opacity := "0" }
    forgotTitle := some { top := "50px", opacity := "0" }
    step1 := some "block"
    step2 := some "none"
    step3 := some "none"
    securityQuestionText := some ""
    verifyEmailBtn := true
    verifyAnswerBtn := true
    resetPasswordBtn := true
    controls :=
      [ { id := "password", form := some .login, value := "", defaultValue := "",
          checked := false, defaultChecked := false },
        { id := "agree", form := some .register, value := "on", defaultValue := "on",
          checked := false, defaultChecked := false },
        { id := "forgot-email", form := some .forgot, value := "", defaultValue := "",
          checked := false, defaultChecked := false },
        { id := "forgot-answer", form := some .forgot, value := "", defaultValue := "",
          checked := false, defaultChecked := false },
        { id := "new-password", form := some .forgot, value := "", defaultValue := "",
          checked := false, defaultChecked := false } ]
    resetEmail := none
    status := []
    nextId := 0
    timers := []
    pending := []
    href := "/login" }

/-- Exactly one of the three wizard steps has `display: block`. -/
def exactlyOneStep (s : Page) : Prop :=
  (s.step1 = some "block" ∧ s.step2 ≠ some "block" ∧ s.step3 ≠ some "block") ∨
  (s.step1 ≠ some "block" ∧ s.step2 = some "block" ∧ s.step3 ≠ some "block") ∨
  (s.step1 ≠ some "block" ∧ s.step2 ≠ some "block" ∧ s.step3 = some "block")

instance (s : Page) : Decidable (exactlyOneStep s) := by
  unfold exactlyOneStep; infer_instance

/-- Panel `p` is the visible one: its form has opacity 1 and the two other
forms have opacity 0. -/
def visiblePanel (s : Page) (p : Panel) : Prop :=
  ∀ q, ((s.form q).map Form.opacity) = some (if q = p then "1" else "0")

/-- The wizard is on EmailEntry (step 1 shown, steps 2 and 3 hidden) and no
reset email is stored. -/
def wizardReset (s : Page) : Prop :=
  s.step1 = some "block" ∧ s.step2 = some "none" ∧ s.step3 = some "none" ∧ s.resetEmail = none

instance (s : Page) : Decidable (wizardReset s) := by
  unfold wizardReset; infer_instance

/-- The page in the middle of the wizard: the forgot-password panel is
active, the email `a@b.com` was verified, step 2 is shown. -/
def midWizardPage : Page :=
  run samplePage
    [ .activate .forgot, .typeInto "forgot-email" "a@b.com", .clickVerifyEmail,
      .respond 0 (.parsed true 200
        { success := true, message := none, security_question := some "Pet name?" }) ]

/-- The page on EmailEntry with `a@b.com` typed into the email field. -/
def emailEntryPage : Page :=
  run samplePage [.activate .forgot, .typeInto "forgot-email" "a@b.com"]

/-- The page on step 3 of the wizard whose stored reset email is gone and
whose new-password field holds `x`. -/
def sessionLostPage : Page :=
  typeInto "new-password" "x"
    { samplePage with step1 := some "none", step3 := some "block", resetEmail := none }

/-- The page on step 2 of the wizard with an empty answer field and no stored
reset email. -/
def emptyAnswerPage : Page :=
  { samplePage with step1 := some "none", step2 := some "block", resetEmail := none }

/-- The form of panel `p` shows exactly one banner, an error with text `text`. -/
def errorBanner (s : Page) (p : Panel) (text : String) : Prop :=
  ∃ m, s.statusWithin p = [m] ∧ m.text = text ∧ m.kind = Kind.error

/-- The outcome of a listener that rejects locally: no request is issued
and the form of panel `p` shows the error `text`. -/
def rejected (before after : Page) (p : Panel) (text : String) : Prop :=
  after.pending = before.pending ∧ errorBanner after p text

/-- The outcome of a wizard listener that finds no stored reset email: the
forgot-password form shows the session-lost error, `loginFunction` is scheduled
after 2000 ms and no request is issued. -/
def sessionLost (before after : Page) : Prop :=
  errorBanner after .forgot "Email session lost. Please start over." ∧
    after.timers = before.timers ++ [{ delay := 2000, action := .backToLogin }] ∧
    after.pending = before.pending

/-- The register form with the terms checkbox left unchecked. -/
def uncheckedTermsPage : Page :=
  run samplePage [.activate .register]

/-- Every control owned by the form of panel `p` holds its default value and
default checkedness, as after `form.reset()`. -/
def formIsReset (s : Page) (p : Panel) : Prop :=
  ∀ c ∈ s.controls, c.form = some p → c.value = c.defaultValue ∧ c.checked = c.defaultChecked

instance (s : Page) (p : Panel) : Decidable (formIsReset s p) := by
  unfold formIsReset; infer_instance

/-- The failure banner of a response handler on panel `p`: one error banner,
whose text is the payload's message when that is a non-empty string and is
`fallback` when the message is absent or empty. -/
def failureBanner (s : Page) (p : Panel) (message : Option String) (fallback : String) : Prop :=
  ∃ text, errorBanner s p text ∧ (∀ m, message = some m → m ≠ "" → text = m) ∧
    (message = none ∨ message = some "" → text = fallback)

/-- The login form after a password was typed and the form submitted. -/
def loginSubmittedPage : Page :=
  run samplePage [.typeInto "password" "hunter2", .submitLogin]

/-- A double click on verify-email followed by the answers in the order
first verifyEmail, verifyAnswer, second verifyEmail. -/
def doubleClickTrace : List Event :=
  [ .activate .forgot, .typeInto "forgot-email" "a@b.com", .clickVerifyEmail, .clickVerifyEmail,
    .respond 0 (.parsed true 200
      { success := true, message := none, security_question := some "Pet name?" }),
    .typeInto "forgot-answer" "rex", .clickVerifyAnswer,
    .respond 1 (.parsed true 200
      { success := true, message := none, security_question := none }),
    .respond 0 (.parsed true 200
      { success := true, message := none, security_question := some "Pet name?" }) ]

/-- Banner identities are well formed: every attached banner was created
before `nextId`, and every pending removal timer names an identity below
`nextId` that belongs to success banners only. -/
def removalsTargetSuccess (s : Page) : Prop :=
  (∀ m ∈ s.status, m.id < s.nextId) ∧
    ∀ t ∈ s.timers, ∀ i, t.action = .removeStatus i →
      i < s.nextId ∧ ∀ m ∈ s.status, m.id = i → m.kind = Kind.success

/-- A page with the whole layout and an error banner on the login form (a
login request that failed in transport). -/
def bannerPage : Page :=
  run samplePage [.submitLogin, .respond 0 .failed]

/-- A page with the seven layout elements but none of the three wizard step
containers, showing an error banner on the login form. -/
def noStepsBannerPage : Page :=
  run { samplePage with step1 := none, step2 := none, step3 := none }
    [.submitLogin, .respond 0 .failed]

/-! ## Basic facts about the layout and the status list -/

theorem layout_present {s : Page} (h : layoutMissing s = false) :
    ∃ lf rf ff w lt rt ft, s.loginForm = some lf ∧ s.registerForm = some rf ∧
      s.forgotPasswordForm = some ff ∧ s.wrapper = some w ∧ s.loginTitle = some lt ∧
      s.registerTitle = some rt ∧ s.forgotTitle = some ft := by
  simp only [layoutMissing, Bool.or_eq_false_iff, Option.isNone_eq_false_iff,
    Option.isSome_iff_exists] at h
  obtain ⟨⟨⟨⟨⟨⟨⟨lf, h1⟩, ⟨rf, h2⟩⟩, ⟨ff, h3⟩⟩, ⟨w, h4⟩⟩, ⟨lt, h5⟩⟩, ⟨rt, h6⟩⟩, ⟨ft, h7⟩⟩ := h
  exact ⟨lf, rf, ff, w, lt, rt, ft, h1, h2, h3, h4, h5, h6, h7⟩

theorem deliver_fetch (s : Page) (req : Request) (r : Response) :
    deliver s.pending.length r (fetch req s) = handleResponse req r s := by
  have h1 : (s.pending ++ [req]).get? s.pending.length = some req := by
    simp
  have h2 : (s.pending ++ [req]).eraseIdx s.pending.length = s.pending := by
    simp [List.eraseIdx_append_of_length_le]
  simp only [deliver, fetch, h1, h2]

theorem showStatusMessage_error (s : Page) (p : Panel) (text : String)
    (h : (s.form p).isSome = true) :
    errorBanner (showStatusMessage p text false s) p text ∧
      (showStatusMessage p text false s).pending = s.pending ∧
      (showStatusMessage p text false s).timers = s.timers := by
  obtain ⟨f, hf⟩ := Option.isSome_iff_exists.mp h
  refine ⟨⟨{ id := s.nextId, within := some p, text := text, kind := .error,
             place := insertionPlace f }, ?_, rfl, rfl⟩, ?_, ?_⟩ <;>
    simp [showStatusMessage, hf, clearStatusMessages, Page.statusWithin, List.filter_append,
      List.filter_filter, kindOf]

theorem isPrefixOf_self (l : List Char) : List.isPrefixOf l l = true := by
  induction l with
  | nil => rfl
  | cons a l ih => simp [List.isPrefixOf, ih]

theorem includesChars_append (a b : List Char) : includesChars (a ++ b) b = true := by
  induction a with
  | nil =>
    cases b with
    | nil => rfl
    | cons c cs => simp [includesChars, isPrefixOf_self]
  | cons x a ih => simp [includesChars, ih]

theorem includes_append (a b : String) : includes (a ++ b) b = true := by
  simp [includes, includesChars_append]

theorem orElse_failureBanner (s : Page) (p : Panel) (message : Option String)
    (fallback : String) (h : (s.form p).isSome = true) :
    failureBanner (showStatusMessage p (orElse message fallback) false s) p message fallback := by
  refine ⟨orElse message fallback, (showStatusMessage_error s p _ h).1, ?_, ?_⟩
  · intro m hm hne
    simp [orElse, truthy, hm, hne]
  · rintro (hm | hm) <;> simp [orElse, truthy, hm]

theorem showStatusMessage_success (s : Page) (p : Panel) (text : String)
    (h : (s.form p).isSome = true) :
    ∃ m, (showStatusMessage p text true s).statusWithin p = [m] ∧ m.text = text ∧
      m.kind = Kind.success ∧
      (showStatusMessage p text true s).timers =
        s.timers ++ [{ delay := 3500, action := .removeStatus m.id }] := by
  obtain ⟨f, hf⟩ := Option.isSome_iff_exists.mp h
  refine ⟨{ id := s.nextId, within := some p, text := text, kind := .success,
            place := insertionPlace f }, ?_⟩
  simp [showStatusMessage, hf, clearStatusMessages, Page.statusWithin, List.filter_append,
    List.filter_filter, kindOf]

/-! ## Panel switching -/

/-- C1 fails: on a page with the seven layout elements, no wizard step
container and an error banner on the login form, `forgotPasswordFunction` throws
at its first step assignment, before `clearStatusMessages()`: the forgot form
has opacity 1 and the banner is still in the document. -/
theorem forgotPasswordFunction_throws_before_clearing :
    layoutMissing noStepsBannerPage = false ∧
      (forgotPasswordFunction noStepsBannerPage).completed = false ∧
      ((activate .forgot noStepsBannerPage).form .forgot).map Form.opacity = some "1" ∧
      (activate .forgot noStepsBannerPage).status.map StatusMsg.text
        = ["A network or server error occurred. Please try again."] ∧
      (activate .forgot noStepsBannerPage).status ≠ [] := by
  refine ⟨by decide, by decide, by decide, by decide, by decide⟩

/-- C1 amended. With the seven layout elements present and from any prior
state, each switching function leaves its own form with opacity 1 and the two
other forms with opacity 0; after `loginFunction` and `registerFunction` the
document holds no status message, and after `forgotPasswordFunction` it holds
none provided the three wizard step containers exist. -/
theorem activate_one_panel_visible (s : Page) (p : Panel) (h : layoutMissing s = false) :
    (∀ q, ((activate p s).form q).map Form.opacity = some (if q = p then "1" else "0")) ∧
      ((p = .forgot → stepsPresent s = true) → (activate p s).status = []) := by
  obtain ⟨lf, rf, ff, w, lt, rt, ft, h1, h2, h3, h4, h5, h6, h7⟩ := layout_present h
  cases p
  · cases hs1 : s.step1 <;> cases hs2 : s.step2 <;> cases hs3 : s.step3 <;>
      simp [activate, loginFunction, h, setLayout, clearStatusMessages, showStepOne, setStep1,
        setStep2, setStep3, Outcome.andThen, Outcome.page, resetForm, removeResetEmail,
        Page.form, h1, h2, h3, hs1, hs2, hs3] <;>
      intro q <;> cases q <;> simp
  · simp [activate, registerFunction, h, setLayout, clearStatusMessages, Page.form, h1, h2, h3]
    intro q; cases q <;> simp
  · constructor
    · cases hs1 : s.step1 <;> cases hs2 : s.step2 <;> cases hs3 : s.step3 <;>
        simp [activate, forgotPasswordFunction, h, setLayout, clearStatusMessages, showStepOne,
          setStep1, setStep2, setStep3, Outcome.andThen, Outcome.page, resetForm,
          removeResetEmail, Page.form, h1, h2, h3, hs1, hs2, hs3] <;>
        intro q <;> cases q <;> simp
    · intro hs
      have hp := hs rfl
      simp only [stepsPresent, Bool.and_eq_true, Option.isSome_iff_exists] at hp
      obtain ⟨⟨⟨d1, hs1⟩, ⟨d2, hs2⟩⟩, ⟨d3, hs3⟩⟩ := hp
      simp [activate, forgotPasswordFunction, h, setLayout, clearStatusMessages, showStepOne,
        setStep1, setStep2, setStep3, Outcome.andThen, Outcome.page, resetForm,
        removeResetEmail, Page.form, h3, hs1, hs2, hs3]

theorem activate_one_panel_visible_witness :
    layoutMissing bannerPage = false ∧ stepsPresent bannerPage = true ∧
      bannerPage.status ≠ [] ∧
      (∀ q, ((activate .forgot bannerPage).form q).map Form.opacity =
          some (if q = .forgot then "1" else "0")) ∧
      (activate .forgot bannerPage).status = [] :=
  ⟨by decide, by decide, by decide,
    (activate_one_panel_visible bannerPage .forgot (by decide)).1,
    (activate_one_panel_visible bannerPage .forgot (by decide)).2 (fun _ => by decide)⟩

/-- C5 fails: from the middle of the wizard (forgot-password panel active,
step 2 shown, an email stored) `registerFunction` leaves step 2 shown and the
email stored. -/
theorem registerFunction_keeps_wizard :
    layoutMissing midWizardPage = false ∧ visiblePanel midWizardPage .forgot ∧
      (activate .register midWizardPage).step2 = some "block" ∧
      (activate .register midWizardPage).resetEmail = some "a@b.com" ∧
      ¬ wizardReset (activate .register midWizardPage) := by
  refine ⟨by decide, ?_, by decide, by decide, by decide⟩
  intro q; cases q <;> decide

/-- C5 amended. From a state where the forgot-password panel is the active
one (the page has its three step containers), `loginFunction` and
`forgotPasswordFunction` put the wizard on step 1 and remove the stored reset
email, while `registerFunction` leaves the three step displays and the stored
email as they were. -/
theorem activate_from_forgot (s : Page) (h : layoutMissing s = false)
    (hs : stepsPresent s = true) (hf : visiblePanel s .forgot) :
    wizardReset (activate .login s) ∧ wizardReset (activate .forgot s) ∧
      ((activate .register s).step1 = s.step1 ∧ (activate .register s).step2 = s.step2 ∧
        (activate .register s).step3 = s.step3 ∧
        (activate .register s).resetEmail = s.resetEmail) := by
  obtain ⟨lf, rf, ff, w, lt, rt, ft, h1, h2, h3, h4, h5, h6, h7⟩ := layout_present h
  have _ := hf
  simp only [stepsPresent, Bool.and_eq_true, Option.isSome_iff_exists] at hs
  obtain ⟨⟨⟨d1, hs1⟩, ⟨d2, hs2⟩⟩, ⟨d3, hs3⟩⟩ := hs
  simp [activate, loginFunction, registerFunction, forgotPasswordFunction, h, setLayout,
    clearStatusMessages, showStepOne, setStep1, setStep2, setStep3, Outcome.andThen,
    Outcome.page, resetForm, removeResetEmail, Page.form, h3, wizardReset, hs1, hs2, hs3]

theorem activate_from_forgot_witness :
    layoutMissing midWizardPage = false ∧ stepsPresent midWizardPage = true ∧
      visiblePanel midWizardPage .forgot ∧
      (wizardReset (activate .login midWizardPage) ∧
        wizardReset (activate .forgot midWizardPage) ∧
        ((activate .register midWizardPage).step1 = midWizardPage.step1 ∧
          (activate .register midWizardPage).step2 = midWizardPage.step2 ∧
          (activate .register midWizardPage).step3 = midWizardPage.step3 ∧
          (activate .register midWizardPage).resetEmail = midWizardPage.resetEmail)) :=
  ⟨by decide, by decide, by intro q; cases q <;> decide,
    activate_from_forgot midWizardPage (by decide) (by decide)
      (by intro q; cases q <;> decide)⟩

/-- C6. With the layout elements present (the seven guarded ones and the
three wizard step containers) and from any prior state,
`forgotPasswordFunction` runs to its end and leaves step 1 with display `block`,
steps 2 and 3 with display `none`, and no `resetEmail` in `sessionStorage`. -/
theorem forgotPasswordFunction_resets (s : Page) (h : layoutMissing s = false)
    (hs : stepsPresent s = true) :
    (forgotPasswordFunction s).completed = true ∧
      (forgotPasswordFunction s).page.step1 = some "block" ∧
      (forgotPasswordFunction s).page.step2 = some "none" ∧
      (forgotPasswordFunction s).page.step3 = some "none" ∧
      (forgotPasswordFunction s).page.resetEmail = none := by
  obtain ⟨lf, rf, ff, w, lt, rt, ft, h1, h2, h3, h4, h5, h6, h7⟩ := layout_present h
  simp only [stepsPresent, Bool.and_eq_true, Option.isSome_iff_exists] at hs
  obtain ⟨⟨⟨d1, hs1⟩, ⟨d2, hs2⟩⟩, ⟨d3, hs3⟩⟩ := hs
  simp [forgotPasswordFunction, h, setLayout, clearStatusMessages, showStepOne, setStep1,
    setStep2, setStep3, Outcome.andThen, Outcome.page, Outcome.completed, resetForm,
    removeResetEmail, Page.form, h3, hs1, hs2, hs3]

theorem forgotPasswordFunction_resets_witness :
    layoutMissing midWizardPage = false ∧ stepsPresent midWizardPage = true ∧
      ((forgotPasswordFunction midWizardPage).completed = true ∧
        (forgotPasswordFunction midWizardPage).page.step1 = some "block" ∧
        (forgotPasswordFunction midWizardPage).page.step2 = some "none" ∧
        (forgotPasswordFunction midWizardPage).page.step3 = some "none" ∧
        (forgotPasswordFunction midWizardPage).page.resetEmail = none) :=
  ⟨by decide, by decide, forgotPasswordFunction_resets midWizardPage (by decide) (by decide)⟩

/-! ## Status messages -/

/-- C7. On a present panel, whatever banners it held, `showStatusMessage`
leaves exactly one banner in the panel, with the given text and the kind
success or error according to `isSuccess`; the call schedules one timer, the
removal of that banner after 3500 ms, when `isSuccess` is true and schedules
nothing otherwise; the scheduled callback removes the banner. -/
theorem showStatusMessage_single (s : Page) (p : Panel) (text : String) (isSuccess : Bool)
    (h : (s.form p).isSome = true) :
    ∃ m, (showStatusMessage p text isSuccess s).statusWithin p = [m] ∧ m.text = text ∧
      m.kind = (if isSuccess then Kind.success else Kind.error) ∧
      (showStatusMessage p text isSuccess s).timers =
        s.timers ++ (if isSuccess then [{ delay := 3500, action := .removeStatus m.id }] else []) ∧
      ((runTimer (.removeStatus m.id) (showStatusMessage p text isSuccess s)).statusWithin p
        = []) := by
  obtain ⟨f, hf⟩ := Option.isSome_iff_exists.mp h
  refine ⟨{ id := s.nextId, within := some p, text := text, kind := kindOf isSuccess,
            place := insertionPlace f }, ?_⟩
  cases isSuccess <;>
    simp [showStatusMessage, hf, clearStatusMessages, Page.statusWithin, List.filter_append,
      List.filter_filter, kindOf, runTimer] <;>
    intro a _ ha _ <;> exact ha

theorem showStatusMessage_single_witness :
    (midWizardPage.form .forgot).isSome = true ∧
      ∃ m, (showStatusMessage .forgot "Done" true midWizardPage).statusWithin .forgot = [m] ∧
        m.text = "Done" ∧ m.kind = (if true then Kind.success else Kind.error) ∧
        (showStatusMessage .forgot "Done" true midWizardPage).timers =
          midWizardPage.timers ++
            (if true then [{ delay := 3500, action := .removeStatus m.id }] else []) ∧
        ((runTimer (.removeStatus m.id)
            (showStatusMessage .forgot "Done" true midWizardPage)).statusWithin .forgot = []) :=
  ⟨by decide, showStatusMessage_single midWizardPage .forgot "Done" true (by decide)⟩

/-! ### Removal timers only ever name success banners -/

theorem removals_mono {s s1 : Page} (h : removalsTargetSuccess s) (hn : s1.nextId = s.nextId)
    (hs : ∀ m ∈ s1.status, m ∈ s.status)
    (ht : ∀ t ∈ s1.timers, t ∈ s.timers ∨ ∀ i, t.action ≠ .removeStatus i) :
    removalsTargetSuccess s1 := by
  refine ⟨fun m hm => hn ▸ h.1 m (hs m hm), fun t htm i hi => ?_⟩
  rcases ht t htm with hold | hnew
  · obtain ⟨h1, h2⟩ := h.2 t hold i hi
    exact ⟨hn ▸ h1, fun m hm => h2 m (hs m hm)⟩
  · exact absurd hi (hnew i)

theorem removals_showStatusMessage {s : Page} (h : removalsTargetSuccess s) (p : Panel)
    (text : String) (isSuccess : Bool) :
    removalsTargetSuccess (showStatusMessage p text isSuccess s) := by
  unfold showStatusMessage
  cases hf : s.form p with
  | none => simpa using h
  | some f =>
    have hst : ∀ m ∈ (clearStatusMessages (some p) s).status, m ∈ s.status := by
      intro m hm
      simp [clearStatusMessages, hf] at hm
      exact hm.1
    have hnx : (clearStatusMessages (some p) s).nextId = s.nextId := by
      simp [clearStatusMessages, hf]
    have htm : (clearStatusMessages (some p) s).timers = s.timers := by
      simp [clearStatusMessages, hf]
    cases isSuccess
    · simp only [Bool.false_eq_true, if_false]
      refine ⟨?_, ?_⟩
      · intro m hm
        simp only [List.mem_append, List.mem_singleton] at hm
        rcases hm with hm | rfl
        · have := h.1 m (hst m hm); simp only [hnx]; omega
        · simp
      · intro t ht i hi
        rw [htm] at ht
        obtain ⟨h1, h2⟩ := h.2 t ht i hi
        refine ⟨by simp only [hnx]; omega, ?_⟩
        intro m hm hid
        simp only [List.mem_append, List.mem_singleton] at hm
        rcases hm with hm | rfl
        · exact h2 m (hst m hm) hid
        · simp only [hnx] at hid; omega
    · simp only [if_true]
      refine ⟨?_, ?_⟩
      · intro m hm
        simp only [List.mem_append, List.mem_singleton] at hm
        rcases hm with hm | rfl
        · have := h.1 m (hst m hm); simp only [hnx]; omega
        · simp
      · intro t ht i hi
        simp only [List.mem_append, List.mem_singleton, htm] at ht
        rcases ht with ht | rfl
        · obtain ⟨h1, h2⟩ := h.2 t ht i hi
          refine ⟨by simp only [hnx]; omega, ?_⟩
          intro m hm hid
          simp only [List.mem_append, List.mem_singleton] at hm
          rcases hm with hm | rfl
          · exact h2 m (hst m hm) hid
          · simp only [hnx] at hid; omega
        · simp only [TimerAction.removeStatus.injEq] at hi
          subst hi
          refine ⟨by simp, ?_⟩
          intro m hm hid
          simp only [List.mem_append, List.mem_singleton] at hm
          rcases hm with hm | rfl
          · have := h.1 m (hst m hm); simp only [hnx] at hid; omega
          · simp [kindOf]


theorem removals_setTimeout {s : Page} (h : removalsTargetSuccess s) (a : TimerAction)
    (delay : Nat) (ha : ∀ i, a ≠ .removeStatus i) :
    removalsTargetSuccess (setTimeout a delay s) := by
  refine removals_mono h rfl (fun m hm => hm) ?_
  intro t ht
  simp only [setTimeout, List.mem_append, List.mem_singleton] at ht
  rcases ht with ht | rfl
  · exact Or.inl ht
  · exact Or.inr ha

theorem removals_clearStatusMessages {s : Page} (h : removalsTargetSuccess s)
    (scope : Option Panel) : removalsTargetSuccess (clearStatusMessages scope s) := by
  cases scope with
  | none => exact removals_mono h rfl (by simp [clearStatusMessages]) (fun t ht => Or.inl ht)
  | some p =>
    cases hf : s.form p with
    | none => simpa [clearStatusMessages, hf] using h
    | some f =>
      refine removals_mono h (by simp [clearStatusMessages, hf]) ?_ ?_
      · intro m hm
        simp [clearStatusMessages, hf] at hm
        exact hm.1
      · intro t ht
        simp [clearStatusMessages, hf] at ht
        exact Or.inl ht

theorem removals_resetForm {s : Page} (h : removalsTargetSuccess s) (p : Panel) :
    removalsTargetSuccess (resetForm p s) := by
  unfold resetForm
  cases s.form p with
  | none => exact h
  | some f => exact removals_mono h rfl (fun m hm => hm) (fun t ht => Or.inl ht)

theorem removals_andThen {o : Outcome} {f : Page → Outcome}
    (ho : removalsTargetSuccess o.page)
    (hf : ∀ s, removalsTargetSuccess s → removalsTargetSuccess (f s).page) :
    removalsTargetSuccess (o.andThen f).page := by
  cases o with
  | done s => exact hf s ho
  | threw s => exact ho

theorem removals_orCatch {o : Outcome} {g : Page → Page}
    (ho : removalsTargetSuccess o.page)
    (hg : ∀ s, removalsTargetSuccess s → removalsTargetSuccess (g s)) :
    removalsTargetSuccess (o.orCatch g) := by
  cases o with
  | done s => exact ho
  | threw s => exact hg s ho

theorem removals_setStep1 {s : Page} (h : removalsTargetSuccess s) (v : String) :
    removalsTargetSuccess (setStep1 v s).page := by
  unfold setStep1
  split
  · exact h
  · exact removals_mono h rfl (fun _ hm => hm) (fun _ ht => Or.inl ht)

theorem removals_setStep2 {s : Page} (h : removalsTargetSuccess s) (v : String) :
    removalsTargetSuccess (setStep2 v s).page := by
  unfold setStep2
  split
  · exact h
  · exact removals_mono h rfl (fun _ hm => hm) (fun _ ht => Or.inl ht)

theorem removals_setStep3 {s : Page} (h : removalsTargetSuccess s) (v : String) :
    removalsTargetSuccess (setStep3 v s).page := by
  unfold setStep3
  split
  · exact h
  · exact removals_mono h rfl (fun _ hm => hm) (fun _ ht => Or.inl ht)

theorem removals_showStepOne {s : Page} (h : removalsTargetSuccess s) :
    removalsTargetSuccess (showStepOne s).page :=
  removals_andThen (removals_setStep1 h _) fun _ h1 =>
    removals_andThen (removals_setStep2 h1 _) fun _ h2 => removals_setStep3 h2 _

theorem removals_loginFunction {s : Page} (h : removalsTargetSuccess s) :
    removalsTargetSuccess (loginFunction s).page := by
  unfold loginFunction
  split
  · exact h
  · have h1 : removalsTargetSuccess
        (setLayout s "50%" "1" "150%" "0" "150%" "0" "500px" "50%" "1" "50px" "0" "50px" "0") :=
      removals_mono h rfl (fun m hm => hm) (fun t ht => Or.inl ht)
    have h2 := removals_clearStatusMessages h1 none
    refine removals_andThen (removals_showStepOne h2) fun s1 h3 => ?_
    exact removals_mono (removals_resetForm h3 .forgot) rfl (fun m hm => hm)
      (fun t ht => Or.inl ht)

theorem removals_registerFunction {s : Page} (h : removalsTargetSuccess s) :
    removalsTargetSuccess (registerFunction s) := by
  unfold registerFunction
  split
  · exact h
  · have h1 : removalsTargetSuccess
        (setLayout s "-50%" "0" "50%" "1" "150%" "0" "680px" "50px" "0" "50%" "1" "50px" "0") :=
      removals_mono h rfl (fun m hm => hm) (fun t ht => Or.inl ht)
    exact removals_clearStatusMessages h1 none

theorem removals_forgotPasswordFunction {s : Page} (h : removalsTargetSuccess s) :
    removalsTargetSuccess (forgotPasswordFunction s).page := by
  unfold forgotPasswordFunction
  split
  · exact h
  · have h1 : removalsTargetSuccess
        (setLayout s "-50%" "0" "150%" "0" "50%" "1" "430px" "50px" "0" "50px" "0" "50%" "1") :=
      removals_mono h rfl (fun m hm => hm) (fun t ht => Or.inl ht)
    refine removals_andThen (removals_showStepOne h1) fun s1 h2 => ?_
    have h3 : removalsTargetSuccess (removeResetEmail (resetForm .forgot s1)) :=
      removals_mono (removals_resetForm h2 .forgot) rfl (fun m hm => hm)
        (fun t ht => Or.inl ht)
    exact removals_clearStatusMessages h3 none

theorem removals_fetch {s : Page} (h : removalsTargetSuccess s) (r : Request) :
    removalsTargetSuccess (fetch r s) :=
  removals_mono h rfl (fun _ hm => hm) (fun _ ht => Or.inl ht)

theorem removals_handleResponse {s : Page} (h : removalsTargetSuccess s) (req : Request)
    (r : Response) : removalsTargetSuccess (handleResponse req r s) := by
  cases req with
  | login =>
    cases r with
    | failed => exact removals_showStatusMessage h _ _ _
    | parsed ok status data =>
      simp only [handleResponse, loginResponse]
      split
      · exact removals_setTimeout (removals_showStatusMessage h _ _ _) _ _ (by simp)
      · exact removals_showStatusMessage h _ _ _
  | register =>
    cases r with
    | failed => exact removals_showStatusMessage h _ _ _
    | parsed ok status data =>
      simp only [handleResponse, registerResponse]
      split
      · exact removals_setTimeout
          (removals_resetForm (removals_showStatusMessage h _ _ _) _) _ _ (by simp)
      · exact removals_showStatusMessage h _ _ _
  | verifyEmail email =>
    cases r with
    | failed => exact removals_showStatusMessage h _ _ _
    | parsed ok status data =>
      simp only [handleResponse, verifyEmailResponse]
      split
      · refine removals_orCatch ?_ (fun s1 h1 => removals_showStatusMessage h1 _ _ _)
        refine removals_andThen (removals_setStep1 ?_ _) fun s1 h1 =>
          removals_andThen (removals_setStep2 h1 _) fun s2 h2 => ?_
        · exact removals_mono h rfl (fun _ hm => hm) (fun _ ht => Or.inl ht)
        · simp only [Outcome.page]
          apply removals_clearStatusMessages
          exact removals_mono h2 rfl (fun _ hm => hm) (fun _ ht => Or.inl ht)
      · exact removals_showStatusMessage h _ _ _
  | verifyAnswer email answer =>
    cases r with
    | failed => exact removals_showStatusMessage h _ _ _
    | parsed ok status data =>
      simp only [handleResponse, verifyAnswerResponse]
      split
      · refine removals_orCatch ?_ (fun s1 h1 => removals_showStatusMessage h1 _ _ _)
        refine removals_andThen (removals_setStep2 h _) fun s1 h1 =>
          removals_andThen (removals_setStep3 h1 _) fun s2 h2 => ?_
        simp only [Outcome.page]
        apply removals_clearStatusMessages
        exact removals_mono h2 rfl (fun _ hm => hm) (fun _ ht => Or.inl ht)
      · exact removals_showStatusMessage h _ _ _
  | resetPassword email pw =>
    cases r with
    | failed => exact removals_showStatusMessage h _ _ _
    | parsed ok status data =>
      simp only [handleResponse, resetPasswordResponse]
      split
      · refine removals_setTimeout (removals_resetForm ?_ _) _ _ (by simp)
        exact removals_mono (removals_showStatusMessage h _ _ _) rfl (fun _ hm => hm)
          (fun _ ht => Or.inl ht)
      · exact removals_showStatusMessage h _ _ _

theorem removals_runTimer {s : Page} (h : removalsTargetSuccess s) (a : TimerAction) :
    removalsTargetSuccess (runTimer a s) := by
  cases a with
  | removeStatus id =>
    refine removals_mono h rfl ?_ (fun _ ht => Or.inl ht)
    intro m hm
    simp [runTimer] at hm
    exact hm.1
  | redirectHome => exact removals_mono h rfl (fun _ hm => hm) (fun _ ht => Or.inl ht)
  | backToLogin => exact removals_loginFunction h
  | loginThenNotify text =>
    exact removals_andThen (removals_loginFunction h) fun s1 h1 =>
      removals_setTimeout h1 _ _ (by simp)
  | notifyLogin text => exact removals_showStatusMessage h _ _ _

theorem removals_step {s : Page} (h : removalsTargetSuccess s) (e : Event) :
    removalsTargetSuccess (step s e) := by
  cases e with
  | activate p =>
    cases p
    · exact removals_loginFunction h
    · exact removals_registerFunction h
    · exact removals_forgotPasswordFunction h
  | typeInto id value => exact removals_mono h rfl (fun _ hm => hm) (fun _ ht => Or.inl ht)
  | toggleAgree =>
    simp only [step, toggleAgree, agreeChange]
    split
    · split
      · refine removals_mono h rfl ?_ (fun _ ht => Or.inl ht)
        intro m hm
        exact (List.mem_filter.mp hm).1
      · exact removals_mono h rfl (fun _ hm => hm) (fun _ ht => Or.inl ht)
    · exact removals_mono h rfl (fun _ hm => hm) (fun _ ht => Or.inl ht)
  | submitLogin =>
    simp only [step, loginSubmit]
    split
    · exact h
    · exact removals_fetch h _
  | submitRegister =>
    simp only [step, registerSubmit]
    split
    · exact h
    · split
      · exact removals_showStatusMessage h _ _ _
      · split
        · exact removals_showStatusMessage h _ _ _
        · exact removals_fetch h _
  | clickVerifyEmail =>
    simp only [step, verifyEmailClick]
    split
    · exact h
    · split
      · exact h
      · split
        · exact removals_showStatusMessage h _ _ _
        · exact removals_fetch h _
  | clickVerifyAnswer =>
    simp only [step, verifyAnswerClick]
    split
    · exact h
    · split
      · exact h
      · split
        · exact removals_showStatusMessage h _ _ _
        · split
          · exact removals_setTimeout (removals_showStatusMessage h _ _ _) _ _ (by simp)
          · exact removals_fetch h _
  | clickResetPassword =>
    simp only [step, resetPasswordClick]
    split
    · exact h
    · split
      · exact h
      · split
        · exact removals_showStatusMessage h _ _ _
        · split
          · exact removals_setTimeout (removals_showStatusMessage h _ _ _) _ _ (by simp)
          · exact removals_fetch h _
  | respond i r =>
    simp only [step, deliver]
    split
    · exact h
    · apply removals_handleResponse
      exact removals_mono h rfl (fun _ hm => hm) (fun _ ht => Or.inl ht)
  | fire i =>
    simp only [step, fireTimer]
    split
    · exact h
    · apply removals_runTimer
      refine removals_mono h rfl (fun _ hm => hm) ?_
      intro t ht
      exact Or.inl (List.mem_of_mem_eraseIdx ht)

theorem removals_run {s : Page} (h : removalsTargetSuccess s) (es : List Event) :
    removalsTargetSuccess (run s es) := by
  induction es generalizing s with
  | nil => exact h
  | cons e es ih => exact ih (removals_step h e)

theorem removals_samplePage : removalsTargetSuccess samplePage := by
  simp [removalsTargetSuccess, samplePage]

/-- In every state reached from a page with well-formed banner identities, a
pending removal timer never names an error banner: error banners are not
auto-removed. -/
theorem error_banner_never_auto_removed (s : Page) (es : List Event)
    (h : removalsTargetSuccess s) :
    ∀ t ∈ (run s es).timers, ∀ m ∈ (run s es).status,
      t.action = .removeStatus m.id → m.kind ≠ Kind.error := by
  intro t ht m hm ha hk
  have := ((removals_run h es).2 t ht m.id ha).2 m hm rfl
  rw [this] at hk
  exact absurd hk (by decide)

/-! ## The wizard listeners -/

/-- C2. On EmailEntry, with the email field holding a non-empty `e` and the
question element present, the click issues a verifyEmail request for `e`; when
a response with `success` true and security question `q` to that request is
handled, the stored reset email is `e`, the displayed question is `q`, step 1
has display `none`, step 2 has display `block` and step 3 stays hidden. -/
theorem verifyEmail_success (s : Page) (e q : String) (ok : Bool) (status : Nat)
    (data : Payload) (hbtn : s.verifyEmailBtn = true)
    (hform : s.forgotPasswordForm.isSome = true)
    (hfield : (getElementById s "forgot-email").map Control.value = some e) (he : e ≠ "")
    (hstep : s.step1 = some "block" ∧ s.step2 = some "none" ∧ s.step3 = some "none")
    (hquestion : s.securityQuestionText.isSome = true)
    (hsuccess : data.success = true) (hq : data.security_question = some q) :
    (verifyEmailClick s).pending = s.pending ++ [.verifyEmail e] ∧
      (deliver s.pending.length (.parsed ok status data) (verifyEmailClick s)).resetEmail
        = some e ∧
      (deliver s.pending.length (.parsed ok status data)
        (verifyEmailClick s)).securityQuestionText = some q ∧
      (deliver s.pending.length (.parsed ok status data) (verifyEmailClick s)).step1
        = some "none" ∧
      (deliver s.pending.length (.parsed ok status data) (verifyEmailClick s)).step2
        = some "block" ∧
      (deliver s.pending.length (.parsed ok status data) (verifyEmailClick s)).step3
        = some "none" := by
  obtain ⟨ff, hff⟩ := Option.isSome_iff_exists.mp hform
  obtain ⟨t, ht⟩ := Option.isSome_iff_exists.mp hquestion
  obtain ⟨c, hc, hv⟩ := Option.map_eq_some'.mp hfield
  have hclick : verifyEmailClick s = fetch (.verifyEmail e) s := by
    simp [verifyEmailClick, hbtn, hff, hc, hv, he]
  rw [hclick, deliver_fetch]
  simp [fetch, handleResponse, verifyEmailResponse, hsuccess, hq, clearStatusMessages, setStep1,
    setStep2, Outcome.andThen, Outcome.orCatch, Page.form, hff, ht, textOf, hstep]

theorem verifyEmail_success_witness :
    emailEntryPage.verifyEmailBtn = true ∧ emailEntryPage.forgotPasswordForm.isSome = true ∧
      (getElementById emailEntryPage "forgot-email").map Control.value = some "a@b.com" ∧
      (emailEntryPage.step1 = some "block" ∧ emailEntryPage.step2 = some "none" ∧
        emailEntryPage.step3 = some "none") ∧
      emailEntryPage.securityQuestionText.isSome = true ∧
      ((verifyEmailClick emailEntryPage).pending
          = emailEntryPage.pending ++ [.verifyEmail "a@b.com"] ∧
        (deliver emailEntryPage.pending.length
          (.parsed true 200 { success := true, message := none,
                              security_question := some "Pet name?" })
          (verifyEmailClick emailEntryPage)).resetEmail = some "a@b.com" ∧
        (deliver emailEntryPage.pending.length
          (.parsed true 200 { success := true, message := none,
                              security_question := some "Pet name?" })
          (verifyEmailClick emailEntryPage)).securityQuestionText = some "Pet name?" ∧
        (deliver emailEntryPage.pending.length
          (.parsed true 200 { success := true, message := none,
                              security_question := some "Pet name?" })
          (verifyEmailClick emailEntryPage)).step1 = some "none" ∧
        (deliver emailEntryPage.pending.length
          (.parsed true 200 { success := true, message := none,
                              security_question := some "Pet name?" })
          (verifyEmailClick emailEntryPage)).step2 = some "block" ∧
        (deliver emailEntryPage.pending.length
          (.parsed true 200 { success := true, message := none,
                              security_question := some "Pet name?" })
          (verifyEmailClick emailEntryPage)).step3 = some "none") :=
  ⟨by decide, by decide, by decide, by decide, by decide,
    verifyEmail_success emailEntryPage "a@b.com" "Pet name?" true 200
      { success := true, message := none, security_question := some "Pet name?" }
      (by decide) (by decide) (by decide) (by decide) (by decide) (by decide) rfl rfl⟩

/-- C3 fails: on step 2 with an empty answer field and no stored reset email,
the verify-answer click shows "Please enter your answer." on the
forgot-password form, not the session-lost error, and schedules no timer. -/
theorem verifyAnswer_empty_field_hides_session_loss :
    emptyAnswerPage.resetEmail = none ∧
      (getElementById emptyAnswerPage "forgot-answer").map Control.value = some "" ∧
      ((verifyAnswerClick emptyAnswerPage).statusWithin .forgot).map StatusMsg.text
        = ["Please enter your answer."] ∧
      (verifyAnswerClick emptyAnswerPage).timers = [] ∧
      ¬ sessionLost emptyAnswerPage (verifyAnswerClick emptyAnswerPage) := by
  refine ⟨by decide, by decide, by decide, by decide, ?_⟩
  rintro ⟨-, h, -⟩
  revert h
  decide

/-- C3 amended. With no reset email stored and a non-empty value in the
listener's input field, the verify-answer click and the reset-password click
each show the error "Email session lost. Please start over." on the
forgot-password form, schedule `loginFunction` after 2000 ms and issue no
request. -/
theorem session_lost_returns_to_login (s : Page) (v : String)
    (hform : s.forgotPasswordForm.isSome = true) (hemail : s.resetEmail = none)
    (hv : v ≠ "") :
    (s.verifyAnswerBtn = true →
        (getElementById s "forgot-answer").map Control.value = some v →
        sessionLost s (verifyAnswerClick s)) ∧
      (s.resetPasswordBtn = true →
        (getElementById s "new-password").map Control.value = some v →
        sessionLost s (resetPasswordClick s)) := by
  obtain ⟨ff, hff⟩ := Option.isSome_iff_exists.mp hform
  have hshow := showStatusMessage_error s .forgot "Email session lost. Please start over."
    (by simpa [Page.form] using hform)
  constructor
  · intro hbtn hfield
    obtain ⟨c, hc, hcv⟩ := Option.map_eq_some'.mp hfield
    have hclick : verifyAnswerClick s = setTimeout .backToLogin 2000
        (showStatusMessage .forgot "Email session lost. Please start over." false s) := by
      simp [verifyAnswerClick, hbtn, hff, hc, hcv, hv, hemail, truthy]
    rw [hclick]
    exact ⟨hshow.1, by simp [setTimeout, hshow.2.2], by simp [setTimeout, hshow.2.1]⟩
  · intro hbtn hfield
    obtain ⟨c, hc, hcv⟩ := Option.map_eq_some'.mp hfield
    have hclick : resetPasswordClick s = setTimeout .backToLogin 2000
        (showStatusMessage .forgot "Email session lost. Please start over." false s) := by
      simp [resetPasswordClick, hbtn, hff, hc, hcv, hv, hemail, truthy]
    rw [hclick]
    exact ⟨hshow.1, by simp [setTimeout, hshow.2.2], by simp [setTimeout, hshow.2.1]⟩

theorem session_lost_returns_to_login_witness :
    sessionLostPage.forgotPasswordForm.isSome = true ∧ sessionLostPage.resetEmail = none ∧
      sessionLostPage.resetPasswordBtn = true ∧
      (getElementById sessionLostPage "new-password").map Control.value = some "x" ∧
      sessionLost sessionLostPage (resetPasswordClick sessionLostPage) :=
  ⟨by decide, by decide, by decide, by decide,
    (session_lost_returns_to_login sessionLostPage "x" (by decide) (by decide) (by decide)).2
      (by decide) (by decide)⟩

/-- C4. When local validation fails the listener issues no request and
shows one error banner on its own form: register with the terms checkbox absent
or unchecked (text "Please agree to the terms and conditions."), verify-email
with an empty email field, verify-answer with an empty answer field or no
stored reset email, reset-password with an empty new-password field or no
stored reset email. -/
theorem local_validation_blocks_request (s : Page) :
    (s.registerForm.isSome = true →
        (getElementById s "agree").map Control.checked ≠ some true →
        rejected s (registerSubmit s) .register "Please agree to the terms and conditions.") ∧
      (s.verifyEmailBtn = true → s.forgotPasswordForm.isSome = true →
        (getElementById s "forgot-email").map Control.value = some "" →
        rejected s (verifyEmailClick s) .forgot "Please enter your email address.") ∧
      (s.verifyAnswerBtn = true → s.forgotPasswordForm.isSome = true →
        ∀ v, (getElementById s "forgot-answer").map Control.value = some v →
          (v = "" ∨ s.resetEmail = none) →
          rejected s (verifyAnswerClick s) .forgot
            (if v = "" then "Please enter your answer."
              else "Email session lost. Please start over.")) ∧
      (s.resetPasswordBtn = true → s.forgotPasswordForm.isSome = true →
        ∀ v, (getElementById s "new-password").map Control.value = some v →
          (v = "" ∨ s.resetEmail = none) →
          rejected s (resetPasswordClick s) .forgot
            (if v = "" then "Please enter a new password."
              else "Email session lost. Please start over.")) := by
  refine ⟨?_, ?_, ?_, ?_⟩
  · intro hform hagree
    obtain ⟨rf, hrf⟩ := Option.isSome_iff_exists.mp hform
    have hshow := showStatusMessage_error s .register
      "Please agree to the terms and conditions." (by simpa [Page.form] using hform)
    have hclick : registerSubmit s
        = showStatusMessage .register "Please agree to the terms and conditions." false s := by
      cases hc : getElementById s "agree" with
      | none => simp [registerSubmit, hrf, hc]
      | some c =>
        have : c.checked = false := by
          cases hcc : c.checked
          · rfl
          · simp [hc, hcc] at hagree
        simp [registerSubmit, hrf, hc, this]
    rw [hclick]
    exact ⟨hshow.2.1, hshow.1⟩
  · intro hbtn hform hfield
    obtain ⟨ff, hff⟩ := Option.isSome_iff_exists.mp hform
    obtain ⟨c, hc, hcv⟩ := Option.map_eq_some'.mp hfield
    have hshow := showStatusMessage_error s .forgot "Please enter your email address."
      (by simpa [Page.form] using hform)
    have hclick : verifyEmailClick s
        = showStatusMessage .forgot "Please enter your email address." false s := by
      simp [verifyEmailClick, hbtn, hff, hc, hcv]
    rw [hclick]
    exact ⟨hshow.2.1, hshow.1⟩
  · intro hbtn hform v hfield hbad
    obtain ⟨ff, hff⟩ := Option.isSome_iff_exists.mp hform
    obtain ⟨c, hc, hcv⟩ := Option.map_eq_some'.mp hfield
    have hf : (s.form .forgot).isSome = true := by simpa [Page.form] using hform
    by_cases hv : v = ""
    · have hshow := showStatusMessage_error s .forgot "Please enter your answer." hf
      have hclick : verifyAnswerClick s
          = showStatusMessage .forgot "Please enter your answer." false s := by
        simp [verifyAnswerClick, hbtn, hff, hc, hcv, hv]
      rw [hclick, if_pos hv]
      exact ⟨hshow.2.1, hshow.1⟩
    · have hemail : s.resetEmail = none := hbad.resolve_left hv
      have hshow := showStatusMessage_error s .forgot "Email session lost. Please start over." hf
      have hclick : verifyAnswerClick s = setTimeout .backToLogin 2000
          (showStatusMessage .forgot "Email session lost. Please start over." false s) := by
        simp [verifyAnswerClick, hbtn, hff, hc, hcv, hv, hemail, truthy]
      rw [hclick, if_neg hv]
      exact ⟨by simp [setTimeout, hshow.2.1], hshow.1⟩
  · intro hbtn hform v hfield hbad
    obtain ⟨ff, hff⟩ := Option.isSome_iff_exists.mp hform
    obtain ⟨c, hc, hcv⟩ := Option.map_eq_some'.mp hfield
    have hf : (s.form .forgot).isSome = true := by simpa [Page.form] using hform
    by_cases hv : v = ""
    · have hshow := showStatusMessage_error s .forgot "Please enter a new password." hf
      have hclick : resetPasswordClick s
          = showStatusMessage .forgot "Please enter a new password." false s := by
        simp [resetPasswordClick, hbtn, hff, hc, hcv, hv]
      rw [hclick, if_pos hv]
      exact ⟨hshow.2.1, hshow.1⟩
    · have hemail : s.resetEmail = none := hbad.resolve_left hv
      have hshow := showStatusMessage_error s .forgot "Email session lost. Please start over." hf
      have hclick : resetPasswordClick s = setTimeout .backToLogin 2000
          (showStatusMessage .forgot "Email session lost. Please start over." false s) := by
        simp [resetPasswordClick, hbtn, hff, hc, hcv, hv, hemail, truthy]
      rw [hclick, if_neg hv]
      exact ⟨by simp [setTimeout, hshow.2.1], hshow.1⟩

theorem local_validation_blocks_request_witness :
    uncheckedTermsPage.registerForm.isSome = true ∧
      (getElementById uncheckedTermsPage "agree").map Control.checked ≠ some true ∧
      rejected uncheckedTermsPage (registerSubmit uncheckedTermsPage) .register
        "Please agree to the terms and conditions." :=
  ⟨by decide, by decide,
    (local_validation_blocks_request uncheckedTermsPage).1 (by decide) (by decide)⟩

/-! ## Response handlers -/

/-- C8 fails: a verifyEmail response with status 500, `success` false and no
message shows "Failed to verify email.", a text that does not contain the
status code; and a login response with status 401 whose message is the empty
string shows "Error: 401", not the payload's message. -/
theorem wizard_fallback_omits_status :
    ((verifyEmailResponse "a@b.com"
        (.parsed false 500 { success := false, message := none, security_question := none })
        emailEntryPage).statusWithin .forgot).map StatusMsg.text = ["Failed to verify email."] ∧
      includes "Failed to verify email." (toString 500) = false ∧
      ((loginResponse
        (.parsed false 401 { success := false, message := some "", security_question := none })
        loginSubmittedPage).statusWithin .login).map StatusMsg.text = ["Error: 401"] := by
  refine ⟨by decide, by decide, by decide⟩

/-- C8 amended. On a response treated as a failure, the login and register
handlers show the payload's message when it is a non-empty string and otherwise
"Error: " followed by the HTTP status code; the verifyEmail, verifyAnswer and
resetPassword handlers show the payload's message when it is a non-empty string
and otherwise the fixed text "Failed to verify email.", "Failed to verify
answer." or "Failed to reset password.". -/
theorem failure_banner_text (s : Page) (ok : Bool) (status : Nat) (data : Payload)
    (email : String) (hl : s.loginForm.isSome = true) (hr : s.registerForm.isSome = true)
    (hf : s.forgotPasswordForm.isSome = true) :
    failureBanner (loginResponse (.parsed false status data) s) .login data.message
        ("Error: " ++ toString status) ∧
      failureBanner (registerResponse (.parsed false status data) s) .register data.message
        ("Error: " ++ toString status) ∧
      includes ("Error: " ++ toString status) (toString status) = true ∧
      (data.success = false →
        failureBanner (verifyEmailResponse email (.parsed ok status data) s) .forgot
            data.message "Failed to verify email." ∧
          failureBanner (verifyAnswerResponse (.parsed ok status data) s) .forgot
            data.message "Failed to verify answer." ∧
          failureBanner (resetPasswordResponse (.parsed ok status data) s) .forgot
            data.message "Failed to reset password.") := by
  refine ⟨?_, ?_, includes_append _ _, ?_⟩
  · simpa [loginResponse] using
      orElse_failureBanner s .login data.message _ (by simpa [Page.form] using hl)
  · simpa [registerResponse] using
      orElse_failureBanner s .register data.message _ (by simpa [Page.form] using hr)
  · intro hd
    have hf2 : (s.form .forgot).isSome = true := by simpa [Page.form] using hf
    refine ⟨?_, ?_, ?_⟩
    · simpa [verifyEmailResponse, hd] using orElse_failureBanner s .forgot data.message _ hf2
    · simpa [verifyAnswerResponse, hd] using orElse_failureBanner s .forgot data.message _ hf2
    · simpa [resetPasswordResponse, hd] using orElse_failureBanner s .forgot data.message _ hf2

theorem failure_banner_text_witness :
    samplePage.loginForm.isSome = true ∧ samplePage.registerForm.isSome = true ∧
      samplePage.forgotPasswordForm.isSome = true ∧
      failureBanner
        (loginResponse
          (.parsed false 401
            { success := false, message := some "Bad password", security_question := none })
          samplePage)
        .login (some "Bad password") ("Error: " ++ toString 401) :=
  ⟨by decide, by decide, by decide,
    (failure_banner_text samplePage false 401
      { success := false, message := some "Bad password", security_question := none } ""
      (by decide) (by decide) (by decide)).1⟩

/-- C9 fails: after a 2xx login response the login form still holds the typed
password, so the form is not reset. -/
theorem login_success_keeps_fields :
    (getElementById
        (loginResponse
          (.parsed true 200
            { success := true, message := some "Welcome", security_question := none })
          loginSubmittedPage) "password").map Control.value = some "hunter2" ∧
      ¬ formIsReset
        (loginResponse
          (.parsed true 200
            { success := true, message := some "Welcome", security_question := none })
          loginSubmittedPage) .login := by
  refine ⟨by decide, by decide⟩

/-- C9 amended. On a 2xx response both handlers leave one success banner with
the server's message on their own form. The register handler resets the
register form and schedules the removal of the banner (3500 ms) and the switch
to the login panel (2000 ms). The login handler leaves every control as it was
and schedules the removal of the banner (3500 ms) and the redirect (1000 ms). -/
theorem success_banner_and_reset (s : Page) (status : Nat) (data : Payload)
    (hl : s.loginForm.isSome = true) (hr : s.registerForm.isSome = true) :
    (∃ m, (loginResponse (.parsed true status data) s).statusWithin .login = [m] ∧
        m.kind = Kind.success ∧ (∀ t, data.message = some t → m.text = t) ∧
        (loginResponse (.parsed true status data) s).controls = s.controls ∧
        (loginResponse (.parsed true status data) s).timers = s.timers ++
          [{ delay := 3500, action := .removeStatus m.id },
           { delay := 1000, action := .redirectHome }]) ∧
      (∃ m, (registerResponse (.parsed true status data) s).statusWithin .register = [m] ∧
        m.kind = Kind.success ∧ (∀ t, data.message = some t → m.text = t) ∧
        formIsReset (registerResponse (.parsed true status data) s) .register ∧
        (registerResponse (.parsed true status data) s).timers = s.timers ++
          [{ delay := 3500, action := .removeStatus m.id },
           { delay := 2000,
             action := .loginThenNotify "Registration successful! Please login." }]) := by
  obtain ⟨m1, h1, h2, h3, h4⟩ :=
    showStatusMessage_success s .login (textOf data.message) (by simpa [Page.form] using hl)
  obtain ⟨m2, k1, k2, k3, k4⟩ :=
    showStatusMessage_success s .register (textOf data.message)
      (by simpa [Page.form] using hr)
  obtain ⟨lf, hlf⟩ := Option.isSome_iff_exists.mp hl
  obtain ⟨rf, hrf⟩ := Option.isSome_iff_exists.mp hr
  constructor
  · refine ⟨m1, ?_, by simpa using h3, ?_, ?_, ?_⟩
    · simpa [loginResponse, setTimeout, Page.statusWithin] using h1
    · intro t ht; simp [h2, ht, textOf]
    · simp [loginResponse, setTimeout, showStatusMessage, Page.form, hlf, clearStatusMessages]
    · simp [loginResponse, setTimeout, h4]
  · have hform : ((showStatusMessage .register (textOf data.message) true s).form .register)
        = some rf := by
      simp [showStatusMessage, Page.form, hrf, clearStatusMessages]
    refine ⟨m2, ?_, by simpa using k3, ?_, ?_, ?_⟩
    · simpa [registerResponse, setTimeout, resetForm, hform, Page.statusWithin] using k1
    · intro t ht; simp [k2, ht, textOf]
    · simp only [registerResponse, setTimeout, resetForm, hform, formIsReset]
      intro c hc hcf
      obtain ⟨c0, -, rfl⟩ := List.mem_map.mp hc
      by_cases h0 : c0.form = some .register
      · simp [h0]
      · simp [h0] at hcf
    · simp [registerResponse, setTimeout, resetForm, hform, k4]

theorem success_banner_and_reset_witness :
    loginSubmittedPage.loginForm.isSome = true ∧ loginSubmittedPage.registerForm.isSome = true ∧
      ∃ m, (loginResponse
              (.parsed true 200
                { success := true, message := some "Welcome", security_question := none })
              loginSubmittedPage).statusWithin .login = [m] ∧
        m.kind = Kind.success ∧ (∀ t, some "Welcome" = some t → m.text = t) ∧
        (loginResponse
          (.parsed true 200
            { success := true, message := some "Welcome", security_question := none })
          loginSubmittedPage).controls = loginSubmittedPage.controls ∧
        (loginResponse
          (.parsed true 200
            { success := true, message := some "Welcome", security_question := none })
          loginSubmittedPage).timers = loginSubmittedPage.timers ++
            [{ delay := 3500, action := .removeStatus m.id },
             { delay := 1000, action := .redirectHome }] :=
  ⟨by decide, by decide,
    (success_banner_and_reset loginSubmittedPage 200
      { success := true, message := some "Welcome", security_question := none }
      (by decide) (by decide)).1⟩

/-! ## The wizard under overlapping requests -/

/-- C10, evaluated at the failing trace: from the initial page (step 1 shown,
steps 2 and 3 hidden, nothing outstanding) a double click on verify-email,
answered in the order first verifyEmail, verifyAnswer, second verifyEmail,
ends with step 2 and step 3 both on display `block`. -/
theorem double_click_shows_two_steps :
    exactlyOneStep samplePage ∧ samplePage.pending = [] ∧
      (run samplePage doubleClickTrace).step2 = some "block" ∧
      (run samplePage doubleClickTrace).step3 = some "block" ∧
      ¬ exactlyOneStep (run samplePage doubleClickTrace) := by
  refine ⟨by decide, by decide, by decide, by decide, by decide⟩

end LoginReg
